import Mathlib

/-
Verification of the LegalDocumentAnalyzer orchestration core.

The definitions below are a shallow embedding of:
  - src/shared/document_state_machine.py  (DocumentState, DocumentStateMachine)
  - src/workflows/workflows/document_processing_workflow.py
    (DocumentProcessingWorkflow.run and its helpers)

Stateful workflow code is embedded as a function from a stage-outcome
assignment to the trace of persistence events it emits plus the value it
returns or the exception it re-raises.  Persistence activities
(update_document_status_activity, mark_document_failed_activity) are
modelled as succeeding; only the five stage activities are given
injectable outcomes, which is the scenario every claim quantifies over.
-/

namespace LegalDocAnalyzer

/-- The DocumentState enum of src/shared/document_state_machine.py. -/
inductive DocumentState where
  | UPLOADED
  | TEXT_EXTRACTING
  | TEXT_EXTRACTED
  | CHUNKING
  | CHUNKED
  | CLASSIFYING
  | CLASSIFIED
  | VECTORIZING
  | VECTORIZED
  | SUMMARIZING
  | SUMMARIZED
  | COMPLETED
  | FAILED
deriving DecidableEq, Repr, Fintype

/-- The string value of each enum member, as in the Python source. -/
def DocumentState.toValue : DocumentState → String
  | .UPLOADED => "uploaded"
  | .TEXT_EXTRACTING => "text_extracting"
  | .TEXT_EXTRACTED => "text_extracted"
  | .CHUNKING => "chunking"
  | .CHUNKED => "chunked"
  | .CLASSIFYING => "classifying"
  | .CLASSIFIED => "classified"
  | .VECTORIZING => "vectorizing"
  | .VECTORIZED => "vectorized"
  | .SUMMARIZING => "summarizing"
  | .SUMMARIZED => "summarized"
  | .COMPLETED => "completed"
  | .FAILED => "failed"

open DocumentState

/-- DocumentStateMachine.ALLOWED_TRANSITIONS: the transition dict of the
source, embedded as an association list in the same key order. -/
def ALLOWED_TRANSITIONS : List (DocumentState × List DocumentState) :=
  [(UPLOADED, [TEXT_EXTRACTING, FAILED]),
   (TEXT_EXTRACTING, [TEXT_EXTRACTED, FAILED]),
   (TEXT_EXTRACTED, [CHUNKING, FAILED]),
   (CHUNKING, [CHUNKED, FAILED]),
   (CHUNKED, [CLASSIFYING, FAILED]),
   (CLASSIFYING, [CLASSIFIED, FAILED]),
   (CLASSIFIED, [VECTORIZING, FAILED]),
   (VECTORIZING, [VECTORIZED, FAILED]),
   (VECTORIZED, [SUMMARIZING, FAILED]),
   (SUMMARIZING, [SUMMARIZED, FAILED]),
   (SUMMARIZED, [COMPLETED]),
   (FAILED, [TEXT_EXTRACTING, CHUNKING, CLASSIFYING, VECTORIZING, SUMMARIZING]),
   (COMPLETED, [])]

/-- DocumentStateMachine.get_allowed_transitions: dict .get with default []. -/
def get_allowed_transitions (current_state : DocumentState) : List DocumentState :=
  (ALLOWED_TRANSITIONS.lookup current_state).getD []

/-- DocumentStateMachine.can_transition. -/
def can_transition (from_state to_state : DocumentState) : Bool :=
  (get_allowed_transitions from_state).contains to_state

/-- DocumentStateMachine.validate_transition: raising
InvalidStateTransitionError is embedded as returning Except.error. -/
def validate_transition (from_state to_state : DocumentState) : Except String Unit :=
  if can_transition from_state to_state then Except.ok ()
  else Except.error
    ("Cannot transition from " ++ from_state.toValue ++ " to " ++ to_state.toValue)

/-- The retry_mapping dict inside DocumentStateMachine.get_retry_state,
keyed by processing-step names. -/
def retry_mapping : List (String × DocumentState) :=
  [("text_extraction", TEXT_EXTRACTING),
   ("chunking", CHUNKING),
   ("classification", CLASSIFYING),
   ("vectorization", VECTORIZING),
   ("summarization", SUMMARIZING)]

/-- DocumentStateMachine.get_retry_state: the parameter is a DocumentState
and the lookup key is its .value string, exactly as in the source. -/
def get_retry_state (failed_state : DocumentState) : Option DocumentState :=
  if failed_state = FAILED then none
  else retry_mapping.lookup failed_state.toValue

/-- Adjacency list of spec section 4.1, transcribed from the
specification text (not from the source), for the refinement claim about
can_transition. -/
def spec_adjacency : DocumentState → List DocumentState
  | UPLOADED => [TEXT_EXTRACTING, FAILED]
  | TEXT_EXTRACTING => [TEXT_EXTRACTED, FAILED]
  | TEXT_EXTRACTED => [CHUNKING, FAILED]
  | CHUNKING => [CHUNKED, FAILED]
  | CHUNKED => [CLASSIFYING, FAILED]
  | CLASSIFYING => [CLASSIFIED, FAILED]
  | CLASSIFIED => [VECTORIZING, FAILED]
  | VECTORIZING => [VECTORIZED, FAILED]
  | VECTORIZED => [SUMMARIZING, FAILED]
  | SUMMARIZING => [SUMMARIZED, FAILED]
  | SUMMARIZED => [COMPLETED]
  | FAILED => [TEXT_EXTRACTING, CHUNKING, CLASSIFYING, VECTORIZING, SUMMARIZING]
  | COMPLETED => []

/-- The five pipeline stages, in the fixed order run executes them
(steps 1 to 5 of DocumentProcessingWorkflow.run). -/
inductive Stage where
  | text_extraction
  | chunking
  | classification
  | vectorization
  | summarization
deriving DecidableEq, Repr, Fintype

/-- The step string each stage helper passes to the status and
mark-failed activities. -/
def stageName : Stage → String
  | .text_extraction => "text_extraction"
  | .chunking => "chunking"
  | .classification => "classification"
  | .vectorization => "vectorization"
  | .summarization => "summarization"

/-- The processing state each stage helper writes before invoking its
activity. -/
def enteringState : Stage → DocumentState
  | .text_extraction => TEXT_EXTRACTING
  | .chunking => CHUNKING
  | .classification => CLASSIFYING
  | .vectorization => VECTORIZING
  | .summarization => SUMMARIZING

/-- The state each stage helper writes after its activity succeeds. -/
def doneState : Stage → DocumentState
  | .text_extraction => TEXT_EXTRACTED
  | .chunking => CHUNKED
  | .classification => CLASSIFIED
  | .vectorization => VECTORIZED
  | .summarization => SUMMARIZED

/-- Position of a stage in the pipeline order. -/
def stageIdx : Stage → Nat
  | .text_extraction => 0
  | .chunking => 1
  | .classification => 2
  | .vectorization => 3
  | .summarization => 4

/-- The stage order of DocumentProcessingWorkflow.run. -/
def stageOrder : List Stage :=
  [.text_extraction, .chunking, .classification, .vectorization, .summarization]

/-- Outcome injected for one stage activity execution: success, or a
failure with an exception message and a retryable classification (the
classification is part of the injected fault, the workflow code never
reads it). -/
inductive StageResult where
  | success
  | failure (message : String) (retryable : Bool)
deriving DecidableEq, Repr

/-- The payload of one mark_document_failed_activity call. -/
structure ErrorRecord where
  step : String
  error_type : String
  message : String
  retryable : Bool
deriving DecidableEq, Repr

/-- One persistence-relevant action of a workflow run:
a status write (update_document_status_activity), a stage activity
invocation, or a mark-failed write (mark_document_failed_activity). -/
inductive Event where
  | statusWrite (status : DocumentState) (step : Option String)
  | invokeStage (stage : Stage)
  | markFailed (record : ErrorRecord)
deriving DecidableEq, Repr

/-- The workflow input dataclass DocumentProcessingInput; it has exactly
these seven fields and no resume-state field. -/
structure DocumentProcessingInput where
  document_id : String
  tenant_id : String
  file_path : String
  file_name : String
  mime_type : String
  file_size : Nat
  created_by : String
deriving DecidableEq, Repr

/-- The dict run returns on success. -/
structure RunResultRecord where
  status : String
  document_id : String
  final_state : String
deriving DecidableEq, Repr

/-- Result of one run: the returned dict, or the re-raised exception
message. -/
inductive RunOutcome where
  | ok (result : RunResultRecord)
  | error (msg : String)
deriving DecidableEq, Repr

/-- The _update_document_status helper of the source: it receives only
the document id, the target status and an optional step string, consults
no current state and performs no validation, and unconditionally performs
the write (one update_document_status_activity call). -/
def update_document_status (_document_id : String) (status : DocumentState)
    (step : Option String) : Event :=
  Event.statusWrite status step

/-- Modelled from the spec: the status-write helper section 4.2 step 1
describes, which invokes validate_transition on the current state and the
state being written before performing the write; this definition exists
only to be compared with the update_document_status helper the source
actually has. -/
def update_document_status_validated (current : DocumentState)
    (status : DocumentState) (step : Option String) : Except String Event :=
  match validate_transition current status with
  | Except.error e => Except.error e
  | Except.ok _ => Except.ok (Event.statusWrite status step)

/-- One stage helper (_extract_text, _chunk_document, _classify_document,
_vectorize_document, _summarize_document): write the entering state with
the stage step name, invoke the stage activity; on success write the done
state (with step None); on exception run _handle_step_failure, which
calls mark_document_failed_activity with error_type processing_error and
retryable hard-coded to True, then re-raise. -/
def runStage (document_id : String) (behavior : Stage → StageResult) (s : Stage) :
    List Event × Option String :=
  match behavior s with
  | StageResult.success =>
      ([update_document_status document_id (enteringState s) (some (stageName s)),
        Event.invokeStage s,
        update_document_status document_id (doneState s) none], none)
  | StageResult.failure msg _r =>
      ([update_document_status document_id (enteringState s) (some (stageName s)),
        Event.invokeStage s,
        Event.markFailed ⟨stageName s, "processing_error", msg, true⟩], some msg)

/-- Sequential execution of the stage helpers inside the try block of
run: a stage exception aborts the sequence. -/
def runStages (document_id : String) (behavior : Stage → StageResult) :
    List Stage → List Event × Option String
  | [] => ([], none)
  | s :: rest =>
      match runStage document_id behavior s with
      | (evs, some msg) => (evs, some msg)
      | (evs, none) =>
          match runStages document_id behavior rest with
          | (evs2, out) => (evs ++ evs2, out)

/-- DocumentProcessingWorkflow.run: execute the five stages in order; on
success write COMPLETED and return the success dict; on any exception run
_handle_workflow_failure (a second mark-failed write with step workflow,
error_type workflow_error, retryable False) and re-raise. -/
def run (input_data : DocumentProcessingInput) (behavior : Stage → StageResult) :
    List Event × RunOutcome :=
  match runStages input_data.document_id behavior stageOrder with
  | (evs, none) =>
      (evs ++ [update_document_status input_data.document_id COMPLETED none],
       RunOutcome.ok ⟨"completed", input_data.document_id, COMPLETED.toValue⟩)
  | (evs, some msg) =>
      (evs ++ [Event.markFailed ⟨"workflow", "workflow_error", msg, false⟩],
       RunOutcome.error msg)

/-- The event trace of one run. -/
def runEvents (input_data : DocumentProcessingInput)
    (behavior : Stage → StageResult) : List Event :=
  (run input_data behavior).1

/-- States written through update_document_status_activity, in order. -/
def statusStates (evs : List Event) : List DocumentState :=
  evs.filterMap fun e =>
    match e with
    | Event.statusWrite st _ => some st
    | _ => none

/-- Stage activities invoked, in order. -/
def invokedStages (evs : List Event) : List Stage :=
  evs.filterMap fun e =>
    match e with
    | Event.invokeStage s => some s
    | _ => none

/-- Mark-failed records written, in order. -/
def failureRecords (evs : List Event) : List ErrorRecord :=
  evs.filterMap fun e =>
    match e with
    | Event.markFailed r => some r
    | _ => none

/-- All states a run persists, in order: status writes persist their
state, and each mark-failed write persists FAILED. -/
def persistedStates (evs : List Event) : List DocumentState :=
  evs.filterMap fun e =>
    match e with
    | Event.statusWrite st _ => some st
    | Event.markFailed _ => some FAILED
    | _ => none

/-- A list of states follows legal edges of the transition table when
each consecutive pair (starting from the given previous state) satisfies
can_transition. -/
def chainLegal : DocumentState → List DocumentState → Bool
  | _, [] => true
  | prev, s :: rest => can_transition prev s && chainLegal s rest

/-- A convenient concrete workflow input. -/
def mkInput (docId : String) : DocumentProcessingInput :=
  ⟨docId, "tenant-1", "files/a.pdf", "a.pdf", "application/pdf", 10, "user-1"⟩

/-- Behavior in which every stage activity succeeds. -/
def allSucceed : Stage → StageResult := fun _ => StageResult.success

/-- Behavior in which exactly one stage fails with the given message and
retryable classification and every other stage succeeds. -/
def failAt (s : Stage) (msg : String) (r : Bool) : Stage → StageResult :=
  fun t => if t = s then StageResult.failure msg r else StageResult.success

/-- Expected trace of one successful stage: entering write, invocation,
done write. -/
def successEventsOf (s : Stage) : List Event :=
  [Event.statusWrite (enteringState s) (some (stageName s)), Event.invokeStage s,
   Event.statusWrite (doneState s) none]

/-- Expected trace of the stage at which the first failure occurs:
entering write, invocation, stage-level mark-failed record. -/
def failureEventsOf (s : Stage) (msg : String) : List Event :=
  [Event.statusWrite (enteringState s) (some (stageName s)), Event.invokeStage s,
   Event.markFailed ⟨stageName s, "processing_error", msg, true⟩]

/-- Expected full trace of a run whose first failure is at stage s with
message msg: all earlier stages succeed, stage s fails, and the top-level
handler appends the workflow-level mark-failed record. -/
def firstFailureEvents (s : Stage) (msg : String) : List Event :=
  ((stageOrder.take (stageIdx s)).map successEventsOf).flatten
  ++ failureEventsOf s msg
  ++ [Event.markFailed ⟨"workflow", "workflow_error", msg, false⟩]

/-- A temporalio RetryPolicy as configured in the workflow, intervals in
seconds. -/
structure RetryPolicy where
  initial_interval_seconds : Nat
  maximum_interval_seconds : Nat
  maximum_attempts : Nat
deriving DecidableEq, Repr

/-- The configuration of one workflow.execute_activity call site:
activity name, start_to_close_timeout in seconds, and the retry_policy
argument when one is passed. -/
structure ActivityCall where
  activity_name : String
  timeout_seconds : Nat
  retry : Option RetryPolicy
deriving DecidableEq, Repr

/-- The execute_activity configuration of each stage helper, transcribed
from the five call sites of the workflow source. -/
def stage_call : Stage → ActivityCall
  | .text_extraction => ⟨"extract_text_activity", 600, some ⟨5, 120, 3⟩⟩
  | .chunking => ⟨"chunk_document_activity", 300, some ⟨5, 60, 3⟩⟩
  | .classification => ⟨"classify_document_activity", 300, some ⟨5, 60, 3⟩⟩
  | .vectorization => ⟨"vectorize_document_activity", 600, some ⟨5, 120, 3⟩⟩
  | .summarization => ⟨"summarize_document_activity", 300, some ⟨5, 60, 3⟩⟩

/-- The execute_activity configuration inside _update_document_status. -/
def update_status_call : ActivityCall :=
  ⟨"update_document_status_activity", 30, some ⟨1, 10, 3⟩⟩

/-- The execute_activity configuration inside _handle_step_failure: a 30
second timeout and no retry_policy argument. -/
def mark_failed_step_call : ActivityCall :=
  ⟨"mark_document_failed_activity", 30, none⟩

/-- The execute_activity configuration inside _handle_workflow_failure: a
30 second timeout and no retry_policy argument. -/
def mark_failed_workflow_call : ActivityCall :=
  ⟨"mark_document_failed_activity", 30, none⟩

/-- In every run, the states written through update_document_status
follow legal transition-table edges starting from UPLOADED. -/
lemma statusStates_chainLegal (input : DocumentProcessingInput)
    (behavior : Stage → StageResult) :
    chainLegal UPLOADED (statusStates (runEvents input behavior)) = true := by
  cases h1 : behavior Stage.text_extraction <;>
  cases h2 : behavior Stage.chunking <;>
  cases h3 : behavior Stage.classification <;>
  cases h4 : behavior Stage.vectorization <;>
  cases h5 : behavior Stage.summarization <;>
  simp [runEvents, run, runStages, runStage, stageOrder, update_document_status,
        statusStates, chainLegal, h1, h2, h3, h4, h5, enteringState, doneState,
        stageName] <;>
  decide

/-- Characterization of run when stage s is the first stage whose
activity fails: the trace is firstFailureEvents s msg and the exception
message is re-raised. -/
lemma run_first_failure (input : DocumentProcessingInput) (behavior : Stage → StageResult)
    (s : Stage) (msg : String) (r : Bool)
    (hfail : behavior s = StageResult.failure msg r)
    (hprev : ∀ t : Stage, stageIdx t < stageIdx s → behavior t = StageResult.success) :
    run input behavior = (firstFailureEvents s msg, RunOutcome.error msg) := by
  cases s with
  | text_extraction =>
      simp [run, runStages, runStage, stageOrder, update_document_status,
            firstFailureEvents, successEventsOf, failureEventsOf, stageIdx, hfail]
  | chunking =>
      have p0 := hprev Stage.text_extraction (by decide)
      simp [run, runStages, runStage, stageOrder, update_document_status,
            firstFailureEvents, successEventsOf, failureEventsOf, stageIdx, hfail, p0]
  | classification =>
      have p0 := hprev Stage.text_extraction (by decide)
      have p1 := hprev Stage.chunking (by decide)
      simp [run, runStages, runStage, stageOrder, update_document_status,
            firstFailureEvents, successEventsOf, failureEventsOf, stageIdx, hfail, p0, p1]
  | vectorization =>
      have p0 := hprev Stage.text_extraction (by decide)
      have p1 := hprev Stage.chunking (by decide)
      have p2 := hprev Stage.classification (by decide)
      simp [run, runStages, runStage, stageOrder, update_document_status,
            firstFailureEvents, successEventsOf, failureEventsOf, stageIdx, hfail, p0, p1, p2]
  | summarization =>
      have p0 := hprev Stage.text_extraction (by decide)
      have p1 := hprev Stage.chunking (by decide)
      have p2 := hprev Stage.classification (by decide)
      have p3 := hprev Stage.vectorization (by decide)
      simp [run, runStages, runStage, stageOrder, update_document_status,
            firstFailureEvents, successEventsOf, failureEventsOf, stageIdx, hfail, p0, p1, p2, p3]

/-- Stages invoked in a first-failure trace: exactly the pipeline prefix
that ends with the failing stage. -/
lemma invokedStages_firstFailureEvents (s : Stage) (msg : String) :
    invokedStages (firstFailureEvents s msg) = stageOrder.take (stageIdx s + 1) := by
  cases s <;> rfl

/-- Mark-failed records in a first-failure trace: the stage-level record
followed by the workflow-level record. -/
lemma failureRecords_firstFailureEvents (s : Stage) (msg : String) :
    failureRecords (firstFailureEvents s msg) =
      [⟨stageName s, "processing_error", msg, true⟩,
       ⟨"workflow", "workflow_error", msg, false⟩] := by
  cases s <;> rfl

/-- Characterization of run when every stage activity succeeds. -/
lemma run_all_success (input : DocumentProcessingInput) (behavior : Stage → StageResult)
    (h : ∀ s, behavior s = StageResult.success) :
    run input behavior =
      ((stageOrder.map successEventsOf).flatten ++ [Event.statusWrite COMPLETED none],
       RunOutcome.ok ⟨"completed", input.document_id, "completed"⟩) := by
  simp [run, runStages, runStage, stageOrder, update_document_status,
        successEventsOf, h, DocumentState.toValue]

/-- C1 counterexample: injecting a fatal (retryable false) failure in
Vectorization, no persisted failure record has both step vectorization
and retryable false, and the last record persisted has step workflow, so
the claim that the document is left with error detail step vectorization
and retryable false is false on the code. -/
theorem C1_counterexample :
    (failureRecords (runEvents (mkInput "doc-c1")
        (failAt Stage.vectorization "fatal input" false))).getLast? =
      some ⟨"workflow", "workflow_error", "fatal input", false⟩
  ∧ (∀ q ∈ failureRecords (runEvents (mkInput "doc-c1")
        (failAt Stage.vectorization "fatal input" false)),
      ¬(q.step = "vectorization" ∧ q.retryable = false)) := by
  decide

/-- C1 amended: when the Vectorization stage fails with any message and
any injected classification, the run persists exactly two failure
records: a stage-level record with step vectorization, error type
processing_error and retryable true regardless of the classification of
the error, then a workflow-level record with step workflow, error type
workflow_error and retryable false; the last persisted state is FAILED
and Summarization is never invoked. -/
theorem C1_vectorization_failure_records (input : DocumentProcessingInput)
    (msg : String) (r : Bool) :
    failureRecords (runEvents input (failAt Stage.vectorization msg r)) =
      [⟨"vectorization", "processing_error", msg, true⟩,
       ⟨"workflow", "workflow_error", msg, false⟩]
  ∧ (persistedStates (runEvents input (failAt Stage.vectorization msg r))).getLast? =
      some FAILED
  ∧ Stage.summarization ∉ invokedStages (runEvents input (failAt Stage.vectorization msg r)) := by
  have hrun := run_first_failure input (failAt Stage.vectorization msg r)
    Stage.vectorization msg r (by simp [failAt])
    (by intro t ht; cases t <;> simp_all [failAt, stageIdx])
  refine ⟨?_, ?_, ?_⟩ <;>
    simp [runEvents, hrun, firstFailureEvents, failureEventsOf, successEventsOf,
          persistedStates, invokedStages, failureRecords, stageOrder, stageIdx,
          stageName, enteringState, doneState]

/-- C2: when all five stage executions succeed, one run persists status
writes in exactly the order TEXT_EXTRACTING, TEXT_EXTRACTED, CHUNKING,
CHUNKED, CLASSIFYING, CLASSIFIED, VECTORIZING, VECTORIZED, SUMMARIZING,
SUMMARIZED, COMPLETED, never writes FAILED at any point, writes no
failure record, and returns the success result with status completed,
the document id, and final state COMPLETED. -/
theorem C2_success_run (input : DocumentProcessingInput) (behavior : Stage → StageResult)
    (h : ∀ s, behavior s = StageResult.success) :
    statusStates (runEvents input behavior) =
      [TEXT_EXTRACTING, TEXT_EXTRACTED, CHUNKING, CHUNKED, CLASSIFYING, CLASSIFIED,
       VECTORIZING, VECTORIZED, SUMMARIZING, SUMMARIZED, COMPLETED]
  ∧ FAILED ∉ persistedStates (runEvents input behavior)
  ∧ failureRecords (runEvents input behavior) = []
  ∧ (run input behavior).2 = RunOutcome.ok ⟨"completed", input.document_id, "completed"⟩ := by
  have hrun := run_all_success input behavior h
  refine ⟨?_, ?_, ?_, ?_⟩ <;>
    simp [runEvents, hrun, statusStates, persistedStates, failureRecords,
          successEventsOf, stageOrder, enteringState, doneState, stageName]

/-- C2 witness: the all-success behavior satisfies the hypothesis and the
conclusion at a concrete input. -/
theorem C2_success_run_witness :
    (∀ s, allSucceed s = StageResult.success)
  ∧ (statusStates (runEvents (mkInput "w2") allSucceed) =
      [TEXT_EXTRACTING, TEXT_EXTRACTED, CHUNKING, CHUNKED, CLASSIFYING, CLASSIFIED,
       VECTORIZING, VECTORIZED, SUMMARIZING, SUMMARIZED, COMPLETED]
  ∧ FAILED ∉ persistedStates (runEvents (mkInput "w2") allSucceed)
  ∧ failureRecords (runEvents (mkInput "w2") allSucceed) = []
  ∧ (run (mkInput "w2") allSucceed).2 =
      RunOutcome.ok ⟨"completed", (mkInput "w2").document_id, "completed"⟩) :=
  ⟨fun _ => rfl, C2_success_run (mkInput "w2") allSucceed (fun _ => rfl)⟩

/-- C3: can_transition agrees exactly with the adjacency list of spec
section 4.1; additionally there are no self loops, COMPLETED has no
outgoing transitions, and FAILED steps exactly to the five processing
states. -/
theorem C3_can_transition_adjacency :
    (∀ f t : DocumentState, can_transition f t = true ↔ t ∈ spec_adjacency f)
  ∧ (∀ s : DocumentState, can_transition s s = false)
  ∧ (∀ t : DocumentState, can_transition COMPLETED t = false)
  ∧ (∀ t : DocumentState, can_transition FAILED t = true ↔
       t ∈ [TEXT_EXTRACTING, CHUNKING, CLASSIFYING, VECTORIZING, SUMMARIZING]) := by
  decide

/-- C4 counterexample: in the run where Chunking fails, the persisted
state sequence is TEXT_EXTRACTING, TEXT_EXTRACTED, CHUNKING, FAILED,
FAILED, whose final consecutive pair is not a legal edge, and the run
re-raises the stage exception rather than an InvalidStateTransitionError,
so the illegal pair was written, not rejected; the spec-modelled
validating helper would have rejected that second FAILED write. -/
theorem C4_counterexample :
    persistedStates (runEvents (mkInput "doc-c4") (failAt Stage.chunking "boom" true)) =
      [TEXT_EXTRACTING, TEXT_EXTRACTED, CHUNKING, FAILED, FAILED]
  ∧ chainLegal UPLOADED
      (persistedStates (runEvents (mkInput "doc-c4") (failAt Stage.chunking "boom" true))) = false
  ∧ (run (mkInput "doc-c4") (failAt Stage.chunking "boom" true)).2 = RunOutcome.error "boom"
  ∧ (update_document_status_validated FAILED FAILED none).toOption = none := by
  decide

/-- C4 amended: the orchestrator performs no transition validation before
its writes: update_document_status consults no current state and writes
unconditionally, while the spec-modelled validating helper succeeds
exactly on can_transition edges. Nevertheless the states written through
update_document_status follow legal edges from UPLOADED in every run; on
a stage failure, however, the two consecutive mark-failed writes persist
FAILED twice, and FAILED to FAILED is not a legal edge. -/
theorem C4_writes_unvalidated (input : DocumentProcessingInput)
    (behavior : Stage → StageResult) :
    chainLegal UPLOADED (statusStates (runEvents input behavior)) = true
  ∧ (∀ docId status step, update_document_status docId status step = Event.statusWrite status step)
  ∧ (∀ current status step,
      (update_document_status_validated current status step = Except.ok (Event.statusWrite status step))
        ↔ can_transition current status = true)
  ∧ (∀ s msg, persistedStates (runEvents input (failAt s msg true)) =
      statusStates (runEvents input (failAt s msg true)) ++ [FAILED, FAILED])
  ∧ can_transition FAILED FAILED = false := by
  refine ⟨statusStates_chainLegal input behavior, fun _ _ _ => rfl, ?_, ?_, by decide⟩
  · intro current status step
    cases h : can_transition current status <;>
      simp [update_document_status_validated, validate_transition, h]
  · intro s msg
    cases s <;> rfl

/-- C5 counterexample: a start request for a document previously left in
FAILED at step chunking is just another run, whose first persisted state
is TEXT_EXTRACTING and not CHUNKING, and which does invoke
TextExtraction, contradicting the claimed resume-at-CHUNKING behavior. -/
theorem C5_counterexample :
    Stage.text_extraction ∈ invokedStages (runEvents (mkInput "doc-c5") allSucceed)
  ∧ (statusStates (runEvents (mkInput "doc-c5") allSucceed)).head? = some TEXT_EXTRACTING
  ∧ (statusStates (runEvents (mkInput "doc-c5") allSucceed)).head? ≠ some CHUNKING := by
  decide

/-- C5 amended: the workflow entry point accepts no resume state (its
input has exactly seven fields, none a resume state), and every run,
whatever the stage outcomes, begins by writing TEXT_EXTRACTING and
invoking TextExtraction first; resumption at the state given by
get_retry_state is not implemented. -/
theorem C5_always_starts_at_first_stage (input : DocumentProcessingInput)
    (behavior : Stage → StageResult) :
    (runEvents input behavior).head? =
      some (Event.statusWrite TEXT_EXTRACTING (some "text_extraction"))
  ∧ (invokedStages (runEvents input behavior)).head? = some Stage.text_extraction := by
  cases h1 : behavior Stage.text_extraction <;>
  cases h2 : behavior Stage.chunking <;>
  cases h3 : behavior Stage.classification <;>
  cases h4 : behavior Stage.vectorization <;>
  cases h5 : behavior Stage.summarization <;>
  simp [runEvents, run, runStages, runStage, stageOrder, update_document_status,
        invokedStages, h1, h2, h3, h4, h5, enteringState, doneState, stageName]

/-- C6: evaluation of get_retry_state on the code as written: the
function takes a DocumentState and looks its value string up in a map
keyed by step names, so only CHUNKING (whose value string chunking
coincides with a step name) maps to a retry state; the states
corresponding to the other four steps return none, although the map
itself holds entries for all five step names, which no DocumentState
value can reach. -/
theorem C6_retry_state_step_names_unreachable :
    get_retry_state CHUNKING = some CHUNKING
  ∧ get_retry_state TEXT_EXTRACTING = none
  ∧ get_retry_state CLASSIFYING = none
  ∧ get_retry_state VECTORIZING = none
  ∧ get_retry_state SUMMARIZING = none
  ∧ get_retry_state FAILED = none
  ∧ retry_mapping.lookup (stageName Stage.text_extraction) = some TEXT_EXTRACTING
  ∧ retry_mapping.lookup (stageName Stage.classification) = some CLASSIFYING
  ∧ (∀ st : DocumentState, st.toValue ≠ stageName Stage.text_extraction)
  ∧ (∀ st : DocumentState, st.toValue ≠ stageName Stage.classification)
  ∧ (∀ st : DocumentState, st.toValue ≠ stageName Stage.vectorization)
  ∧ (∀ st : DocumentState, st.toValue ≠ stageName Stage.summarization) := by
  decide

/-- C7: if stage s is the first stage to fail, the stages invoked are
exactly the pipeline prefix ending at s, so no later stage ever runs; the
stage-level mark-failed record for s is written at the point of failure,
and the exception is re-raised to the caller. -/
theorem C7_fail_fast (input : DocumentProcessingInput) (behavior : Stage → StageResult)
    (s : Stage) (msg : String) (r : Bool)
    (hfail : behavior s = StageResult.failure msg r)
    (hprev : ∀ t : Stage, stageIdx t < stageIdx s → behavior t = StageResult.success) :
    invokedStages (runEvents input behavior) = stageOrder.take (stageIdx s + 1)
  ∧ Event.markFailed ⟨stageName s, "processing_error", msg, true⟩ ∈ runEvents input behavior
  ∧ (run input behavior).2 = RunOutcome.error msg := by
  have hrun := run_first_failure input behavior s msg r hfail hprev
  refine ⟨?_, ?_, ?_⟩
  · simp only [runEvents, hrun]
    exact invokedStages_firstFailureEvents s msg
  · simp only [runEvents, hrun]
    cases s <;>
      simp [firstFailureEvents, failureEventsOf, successEventsOf, stageOrder,
            stageIdx, stageName]
  · rw [hrun]

/-- C7 witness: a fatal Vectorization failure satisfies the hypotheses
and the conclusion concretely: Summarization is not among the invoked
stages. -/
theorem C7_fail_fast_witness :
    (failAt Stage.vectorization "boom" false Stage.vectorization =
       StageResult.failure "boom" false)
  ∧ (∀ t : Stage, stageIdx t < stageIdx Stage.vectorization →
       failAt Stage.vectorization "boom" false t = StageResult.success)
  ∧ (invokedStages (runEvents (mkInput "w7") (failAt Stage.vectorization "boom" false)) =
       stageOrder.take (stageIdx Stage.vectorization + 1)
  ∧ Event.markFailed ⟨stageName Stage.vectorization, "processing_error", "boom", true⟩ ∈
       runEvents (mkInput "w7") (failAt Stage.vectorization "boom" false)
  ∧ (run (mkInput "w7") (failAt Stage.vectorization "boom" false)).2 =
       RunOutcome.error "boom") :=
  ⟨by decide, by decide,
   C7_fail_fast (mkInput "w7") (failAt Stage.vectorization "boom" false)
     Stage.vectorization "boom" false (by decide) (by decide)⟩

/-- C8: on any first failure at stage s, exactly two mark-failed records
are written: the stage record with step equal to the stage name, error
type processing_error and retryable true, then the workflow record with
step workflow, error type workflow_error and retryable false; hence the
last failure record persisted names step workflow, not the failing
stage. -/
theorem C8_workflow_record_overwrites (input : DocumentProcessingInput)
    (behavior : Stage → StageResult) (s : Stage) (msg : String) (r : Bool)
    (hfail : behavior s = StageResult.failure msg r)
    (hprev : ∀ t : Stage, stageIdx t < stageIdx s → behavior t = StageResult.success) :
    failureRecords (runEvents input behavior) =
      [⟨stageName s, "processing_error", msg, true⟩,
       ⟨"workflow", "workflow_error", msg, false⟩]
  ∧ (failureRecords (runEvents input behavior)).getLast? =
      some ⟨"workflow", "workflow_error", msg, false⟩ := by
  have hrun := run_first_failure input behavior s msg r hfail hprev
  have hrec : failureRecords (runEvents input behavior) =
      [⟨stageName s, "processing_error", msg, true⟩,
       ⟨"workflow", "workflow_error", msg, false⟩] := by
    simp only [runEvents, hrun]
    exact failureRecords_firstFailureEvents s msg
  exact ⟨hrec, by rw [hrec]; rfl⟩

/-- C8 witness: a Chunking failure satisfies the hypotheses and the
conclusion concretely. -/
theorem C8_workflow_record_overwrites_witness :
    (failAt Stage.chunking "db down" true Stage.chunking =
       StageResult.failure "db down" true)
  ∧ (∀ t : Stage, stageIdx t < stageIdx Stage.chunking →
       failAt Stage.chunking "db down" true t = StageResult.success)
  ∧ (failureRecords (runEvents (mkInput "w8") (failAt Stage.chunking "db down" true)) =
      [⟨stageName Stage.chunking, "processing_error", "db down", true⟩,
       ⟨"workflow", "workflow_error", "db down", false⟩]
  ∧ (failureRecords (runEvents (mkInput "w8") (failAt Stage.chunking "db down" true))).getLast? =
      some ⟨"workflow", "workflow_error", "db down", false⟩) :=
  ⟨by decide, by decide,
   C8_workflow_record_overwrites (mkInput "w8") (failAt Stage.chunking "db down" true)
     Stage.chunking "db down" true (by decide) (by decide)⟩

/-- C9 counterexample: the mark-failed call sites specify the 30 second
timeout but no retry policy at all, so the claim that every status-write
call, mark_failed included, runs under the one-second initial,
ten-second maximum, three-attempt policy is false on the code. -/
theorem C9_counterexample :
    mark_failed_step_call.activity_name = "mark_document_failed_activity"
  ∧ mark_failed_step_call.timeout_seconds = 30
  ∧ mark_failed_step_call.retry = none
  ∧ mark_failed_step_call.retry ≠ some ⟨1, 10, 3⟩
  ∧ mark_failed_workflow_call.retry = none := by
  decide

/-- C9 amended: extraction and vectorization activities run under a 600
second timeout with policy 5, 120, 3; chunking, classification and
summarization under 300 seconds with 5, 60, 3; status-update calls under
30 seconds with 1, 10, 3; the two mark-failed call sites run under the 30
second timeout but pass no retry policy. -/
theorem C9_call_configs :
    stage_call Stage.text_extraction = ⟨"extract_text_activity", 600, some ⟨5, 120, 3⟩⟩
  ∧ stage_call Stage.vectorization = ⟨"vectorize_document_activity", 600, some ⟨5, 120, 3⟩⟩
  ∧ stage_call Stage.chunking = ⟨"chunk_document_activity", 300, some ⟨5, 60, 3⟩⟩
  ∧ stage_call Stage.classification = ⟨"classify_document_activity", 300, some ⟨5, 60, 3⟩⟩
  ∧ stage_call Stage.summarization = ⟨"summarize_document_activity", 300, some ⟨5, 60, 3⟩⟩
  ∧ update_status_call = ⟨"update_document_status_activity", 30, some ⟨1, 10, 3⟩⟩
  ∧ mark_failed_step_call = ⟨"mark_document_failed_activity", 30, none⟩
  ∧ mark_failed_workflow_call = ⟨"mark_document_failed_activity", 30, none⟩ := by
  decide

end LegalDocAnalyzer
